import Mathlib

/-!
Shallow embedding of `app/services/server_manager.py` from the daemon-app
repository: an in-memory registry of spawned game-server processes plus
filesystem-backed provisioning, configuration and log operations.

Modelling conventions:
* The Python module-level dict `_running_servers` (server id → Popen handle)
  becomes an association list `Registry` with dict semantics (unique keys;
  insertion overwrites, deletion removes the key).
* Operating-system introspection (`Popen.poll`, `psutil`) is an oracle
  structure `OS` passed explicitly: `pollDead pid` is true when `poll()`
  returns a non-None exit status, `psFound pid` is true when `psutil` can
  still locate the pid (its absence raises `NoSuchProcess` in the source).
* Filesystem paths are segment lists (`os.path.join a b` ↦ `[a, b]`), the
  filesystem is an explicit `FS` value threaded through every operation.
* Python exceptions become an `Err` inductive; a function that can raise
  returns `Except Err α` together with the post-state, because the source
  mutates state before some raise sites.
* Fallible I/O (a write or archive extraction failing midway) is injected
  through an explicit `crash : Option Nat` parameter counting the units
  (characters, archive entries) written before the failure.
-/

namespace DaemonApp

/-- A spawned process handle: the `subprocess.Popen` object, reduced to the
data the manager reads from it (its pid). -/
structure Proc where
  pid : Nat
deriving DecidableEq, Repr

/-- The module-level `_running_servers` dict: server id → process handle. -/
abbrev Registry := List (String × Proc)

/-- Dict membership/lookup: `_running_servers[server_id]`. -/
def Registry.lookup (reg : Registry) (id : String) : Option Proc :=
  match reg with
  | [] => none
  | (k, p) :: rest => if k = id then some p else Registry.lookup rest id

/-- `del _running_servers[server_id]` (dict keys are unique, so removing
every binding of the key is the dict behaviour). -/
def Registry.remove (reg : Registry) (id : String) : Registry :=
  reg.filter (fun e => e.1 ≠ id)

/-- `_running_servers[server_id] = process`: dict assignment overwrites. -/
def Registry.insert (reg : Registry) (id : String) (p : Proc) : Registry :=
  (id, p) :: Registry.remove reg id

/-- Oracle for operating-system process introspection. -/
structure OS where
  /-- `poll() is not None`: the child has exited and been reaped. -/
  pollDead : Nat → Bool
  /-- `psutil` can still find the pid; when false, constructing
  `psutil.Process(pid)` (or sampling it) raises `NoSuchProcess`. -/
  psFound : Nat → Bool
  /-- `p.cpu_percent(interval=0.1)` sample. -/
  cpuPct : Nat → ℚ
  /-- `p.memory_info().rss`, in bytes. -/
  rssBytes : Nat → Nat

/-- Python exceptions raised (or caught) by the manager. -/
inductive Err
  /-- `ValueError` -/
  | valueError
  /-- `FileNotFoundError` -/
  | fileNotFound
  /-- `RuntimeError` (wrapping a failed config write) -/
  | runtimeError
  /-- `subprocess.TimeoutExpired` escaping `process.wait(timeout=10)` -/
  | timeoutExpired
  /-- `psutil.NoSuchProcess` -/
  | noSuchProcess
  /-- an error escaping `zipfile` extraction (`BadZipFile`/`OSError`) -/
  | zipError
deriving DecidableEq, Repr

/-- Signals the manager sends to a child process. -/
inductive Signal
  /-- `process.terminate()` — SIGTERM -/
  | sigterm
  /-- `process.kill()` — SIGKILL (never sent by the source) -/
  | sigkill
deriving DecidableEq, Repr

/-- The dict returned by `get_server_status`. `memory` is rational because
the source computes `rss / (1024 * 1024)` with true division. -/
structure Status where
  running : Bool
  cpu : ℚ
  memory : ℚ
  pid : Option Nat
deriving DecidableEq, Repr

/-- `{"status": "stopped", "cpu": 0, "memory": 0}` (no `"pid"` key). -/
def stoppedStatus : Status := ⟨false, 0, 0, none⟩

/-!  `get_server_status` (source lines 63–80). -/

/-- The body of the `try` block: construct `psutil.Process(pid)` and sample
cpu and memory; raises `NoSuchProcess` when the pid has vanished. -/
def sampleProcess (os : OS) (pid : Nat) : Except Err Status :=
  if os.psFound pid then
    .ok ⟨true, os.cpuPct pid, (os.rssBytes pid : ℚ) / (1024 * 1024), some pid⟩
  else
    .error .noSuchProcess

/-- `get_server_status(server_id)`: returns the status dict and the registry
after the call (the source deletes the entry in the `NoSuchProcess` handler
only). -/
def get_server_status (os : OS) (reg : Registry) (id : String) :
    Except Err Status × Registry :=
  match Registry.lookup reg id with
  | none => (.ok stoppedStatus, reg)
  | some p =>
    if os.pollDead p.pid then
      (.ok stoppedStatus, reg)
    else
      match sampleProcess os p.pid with
      | .ok st => (.ok st, reg)
      | .error .noSuchProcess => (.ok stoppedStatus, Registry.remove reg id)
      | .error e => (.error e, reg)

/-!  `stop_server` (source lines 51–61).  The oracle argument
`exitsInTime pid` says whether the process exits within the 10-second
`wait(timeout=10)` window after SIGTERM; when it does not, `wait` raises
`TimeoutExpired`, which the source does not catch. The result records the
signals actually sent to the child. -/

/-- `stop_server(server_id)`. -/
def stop_server (os : OS) (exitsInTime : Nat → Bool) (reg : Registry)
    (id : String) : Except Err Unit × Registry × List Signal :=
  match Registry.lookup reg id with
  | none => (.error .valueError, reg, [])
  | some p =>
    if os.pollDead p.pid then
      (.error .valueError, reg, [])
    else if exitsInTime p.pid then
      (.ok (), Registry.remove reg id, [.sigterm])
    else
      -- `process.wait(timeout=10)` raises TimeoutExpired: the entry is not
      -- removed, and no further signal is sent.
      (.error .timeoutExpired, reg, [.sigterm])

/-!  Filesystem model.  A path is its list of segments; `os.path.join` is
list append (segments are treated as opaque names, which is exact for the
names the manager builds once template-name validation has passed). -/

/-- Explicit filesystem state: existing directories, regular files with
their text content, and the set of files carrying the executable bit. -/
structure FS where
  dirs : List (List String)
  files : List (List String × String)
  execBits : List (List String)
deriving DecidableEq, Repr

/-- `os.path.isdir(p)`. -/
def FS.isDir (fs : FS) (p : List String) : Bool := fs.dirs.contains p

/-- Association-list lookup used for the file table. -/
def lookupFile (files : List (List String × String)) (p : List String) :
    Option String :=
  match files with
  | [] => none
  | (q, c) :: rest => if q = p then some c else lookupFile rest p

/-- Look up a file's content (`none` when the file does not exist). -/
def FS.readFile (fs : FS) (p : List String) : Option String :=
  lookupFile fs.files p

/-- `os.path.isfile(p)` / `os.path.exists(p)` for a regular file. -/
def FS.isFile (fs : FS) (p : List String) : Bool := (fs.readFile p).isSome

/-- Create or overwrite a regular file with the given content. -/
def FS.writeFile (fs : FS) (p : List String) (c : String) : FS :=
  { fs with files := (p, c) :: fs.files.filter (fun e => e.1 ≠ p) }

/-- `os.makedirs(p)`. -/
def FS.mkdir (fs : FS) (p : List String) : FS :=
  { fs with dirs := p :: fs.dirs }

/-- `os.chmod(p, 0o755)`: set the executable bit. -/
def FS.chmodExec (fs : FS) (p : List String) : FS :=
  { fs with execBits := p :: fs.execBits }

/-- `shutil.rmtree(p)`: remove the directory and everything below it. -/
def FS.rmtree (fs : FS) (p : List String) : FS :=
  { dirs := fs.dirs.filter (fun d => ¬ List.isPrefixOf p d),
    files := fs.files.filter (fun e => ¬ List.isPrefixOf p e.1),
    execBits := fs.execBits.filter (fun e => ¬ List.isPrefixOf p e) }

/-!  `get_server_logs` (source lines 82–91). -/

/-- Python `str.splitlines`-as-`readlines`: split a character list into
lines, each keeping its terminating newline; a final unterminated chunk is
kept as-is; the empty file yields no lines (`f.readlines()` semantics). -/
def readlinesChars : List Char → List (List Char)
  | [] => []
  | c :: rest =>
    match readlinesChars rest with
    | [] => [[c]]
    | l :: ls => if c = '\n' then [c] :: l :: ls else (c :: l) :: ls

/-- Python slice `xs[-n:]` for an integer `n` (the source evaluates
`log_lines[-lines:]`): for `n > 0` the last `min n len` elements, for
`n = 0` the whole list (since `-0 = 0`), for `n < 0` the list with its
first `min (-n) len` elements dropped. -/
def pyLastSlice {α : Type} (xs : List α) (n : Int) : List α :=
  if 0 < n then xs.drop (xs.length - min n.toNat xs.length)
  else xs.drop (min (-n).toNat xs.length)

/-- `get_server_logs(server_id, base_path, lines=100)`: read the log file,
take the last `lines` lines, re-join (`"".join` of lines that kept their
newlines). -/
def get_server_logs (fs : FS) (id basePath : String) (lines : Int := 100) :
    Except Err String :=
  match fs.readFile [basePath, id, "console.log"] with
  | none => .error .fileNotFound
  | some content =>
    .ok (String.mk (pyLastSlice (readlinesChars content.data) lines).flatten)

/-!  `update_server_config` (source lines 169–207).  The `new_config`
payload is modelled by its JSON serialisation `serialized` (the exact text
`json.dump(new_config, f, indent=4)` emits) together with the flag
`isDict` (`isinstance(new_config, dict)`).  `crash = some k` injects an
I/O failure after `k` characters of the dump have reached the file; the
source opens the file with mode `"w"`, which truncates it first, and its
`except Exception` handler re-raises as `RuntimeError`. -/

/-- `update_server_config(server_id, base_path, new_config)`. -/
def update_server_config (fs : FS) (crash : Option Nat) (id basePath : String)
    (isDict : Bool) (serialized : String) : Except Err Unit × FS :=
  if ¬ isDict then
    (.error .valueError, fs)
  else if ¬ fs.isDir [basePath, id] then
    (.error .fileNotFound, fs)
  else if ¬ fs.isFile [basePath, id, "conf.json"] then
    (.error .fileNotFound, fs)
  else
    match crash with
    | none => (.ok (), fs.writeFile [basePath, id, "conf.json"] serialized)
    | some k =>
      -- open(..., 'w') already truncated; k characters were written before
      -- the failure; the handler raises RuntimeError.
      (.error .runtimeError,
        fs.writeFile [basePath, id, "conf.json"] (String.mk (serialized.data.take k)))

/-!  `create_server` (source lines 93–132).  The archive layer is a
parameter `unzip`, mapping an archive file's raw bytes to its entry list
(name, content); `none` models an archive `zipfile` rejects.  `crash =
some k` injects an extraction failure after `k` entries have been written
(the exception escapes, the source has no handler around `extractall`). -/

/-- `'..' in template_name`: Python substring containment of `".."`. -/
def hasDotDot : List Char → Bool
  | a :: b :: rest => (a == '.' && b == '.') || hasDotDot (b :: rest)
  | _ => false

/-- `zip_ref.extractall(server_path)` writing the first `entries` of the
archive into the destination directory. -/
def extractEntries (fs : FS) (dest : List String)
    (entries : List (String × String)) : FS :=
  entries.foldl (fun f e => f.writeFile (dest ++ [e.1]) e.2) fs

/-- `create_server(server_id, base_path, templates_path, template_name)`. -/
def create_server (unzip : String → Option (List (String × String)))
    (crash : Option Nat) (fs : FS) (id basePath templatesPath tname : String) :
    Except Err (List String) × FS :=
  -- server_path = os.path.join(base_path, server_id)  (pure)
  if hasDotDot tname.data || tname.data.contains '/' then
    (.error .valueError, fs)
  else if fs.isDir [basePath, id] then
    (.error .valueError, fs)
  else
    match fs.readFile [templatesPath, tname] with
    | none => (.error .fileNotFound, fs)
    | some blob =>
      let fs1 := fs.mkdir [basePath, id]
      match unzip blob with
      | none => (.error .zipError, fs1)
      | some entries =>
        match crash with
        | some k =>
          if k < entries.length then
            (.error .zipError, extractEntries fs1 [basePath, id] (entries.take k))
          else
            finishCreate fs1 basePath id entries
        | none => finishCreate fs1 basePath id entries
where
  /-- Successful tail of `create_server`: full extraction, then
  `os.chmod` on `ragemp-server` if present. -/
  finishCreate (fs1 : FS) (basePath id : String)
      (entries : List (String × String)) : Except Err (List String) × FS :=
    let fs2 := extractEntries fs1 [basePath, id] entries
    let fs3 :=
      if fs2.isFile [basePath, id, "ragemp-server"] then
        fs2.chmodExec [basePath, id, "ragemp-server"]
      else fs2
    (.ok [basePath, id], fs3)

/-!  `delete_server` (source lines 134–167). -/

/-- `delete_server(server_id, base_path)`: stop first when a live entry
exists, then check the directory, remove it, and clear any leftover
registry entry.  The result also reports the signals sent to the child. -/
def delete_server (os : OS) (exitsInTime : Nat → Bool) (fs : FS)
    (reg : Registry) (id basePath : String) :
    Except Err Unit × Registry × FS × List Signal :=
  let afterStop : Except Err Unit × Registry × List Signal :=
    match Registry.lookup reg id with
    | some p =>
      if os.pollDead p.pid then (.ok (), reg, [])
      else stop_server os exitsInTime reg id
    | none => (.ok (), reg, [])
  match afterStop with
  | (.error e, reg1, sigs) => (.error e, reg1, fs, sigs)
  | (.ok (), reg1, sigs) =>
    if ¬ fs.isDir [basePath, id] then
      (.error .fileNotFound, reg1, fs, sigs)
    else
      let fs1 := fs.rmtree [basePath, id]
      (.ok (), Registry.remove reg1 id, fs1, sigs)

/-!  The `start_server` double-start race (source lines 15–49).

Under CPython every line of `start_server` is interleavable with another
request thread: between the membership check on line 24 and the dict
assignment on line 48 the function performs `os.path.isdir`,
`os.path.isfile`, `open` and `subprocess.Popen`, all of which release the
GIL.  We model one thread's execution of `start_server` (for a fixed id
whose directory and executable exist) as three atomic phases:

  0. the check `server_id in _running_servers and poll() is None`
     (raises ValueError when it holds),
  1. the filesystem checks, log-file open and `Popen` spawn
     (no effect on the shared dict; yields the thread's pid),
  2. the assignment `_running_servers[server_id] = process`.

A schedule is the list of thread choices; `runStartRace` executes two
threads of this program against the shared registry.  Freshly spawned
children are alive, so `pollDead` is false for every pid here. -/

/-- Outcome of one thread's `start_server` call. -/
inductive StartOutcome
  /-- still executing -/
  | pending
  /-- `ValueError: already running` -/
  | conflictErr
  /-- returned `{"status": "started", "pid": pid}` -/
  | started (pid : Nat)
deriving DecidableEq, Repr

/-- One thread of the race: its program counter and final outcome. -/
structure StartThread where
  pc : Nat
  out : StartOutcome
deriving DecidableEq, Repr

/-- Shared state of the two racing `start_server(id)` calls. -/
structure RaceState where
  reg : Registry
  t0 : StartThread
  t1 : StartThread
deriving DecidableEq, Repr

/-- Line 24's condition for a fixed id, with every registered child still
alive (`poll() is None`). -/
def liveCheck (reg : Registry) (id : String) : Bool :=
  (Registry.lookup reg id).isSome

/-- Advance one thread of `start_server(id)` by one atomic phase.  The
thread's spawned pid is `myPid`. -/
def startStep (id : String) (myPid : Nat) (reg : Registry)
    (t : StartThread) : Registry × StartThread :=
  match t.pc with
  | 0 =>
    if liveCheck reg id then (reg, ⟨3, .conflictErr⟩)
    else (reg, ⟨1, .pending⟩)
  | 1 => (reg, ⟨2, .pending⟩)  -- isdir/isfile/open/Popen: dict untouched
  | 2 => (Registry.insert reg id ⟨myPid⟩, ⟨3, .started myPid⟩)
  | _ => (reg, t)

/-- Run a schedule (`false` = thread 0, `true` = thread 1) of the two
racing calls; thread 0 spawns pid 100, thread 1 spawns pid 101. -/
def runStartRace (id : String) (s : RaceState) : List Bool → RaceState
  | [] => s
  | who :: rest =>
    let s1 :=
      if who then
        let (reg1, t1) := startStep id 101 s.reg s.t1
        { s with reg := reg1, t1 := t1 }
      else
        let (reg1, t0) := startStep id 100 s.reg s.t0
        { s with reg := reg1, t0 := t0 }
    runStartRace id s1 rest

/-- Both threads at the start of `start_server(id)`, the id never started. -/
def raceInit : RaceState := ⟨[], ⟨0, .pending⟩, ⟨0, .pending⟩⟩

/-!  Specification-side definition, for comparison with the source. -/

/-- The specification's "the last `n` lines of the file, in their original
order, re-joined": take the final `n` elements of the line list (via
reverse/take/reverse) and concatenate them back. -/
def specLastLines (content : String) (n : Nat) : String :=
  String.mk ((readlinesChars content.data).reverse.take n).reverse.flatten

/-!  Concrete fixtures used by witnesses and counterexamples. -/

/-- Oracle: every pid has exited and been reaped (`poll()` non-None). -/
def osExited : OS := ⟨fun _ => true, fun _ => true, fun _ => 0, fun _ => 0⟩

/-- Oracle: every pid alive and visible to psutil, idle, zero memory. -/
def osAlive : OS := ⟨fun _ => false, fun _ => true, fun _ => 0, fun _ => 0⟩

/-- Oracle: every pid alive per `poll()`, visible to psutil, at 5% cpu and
3 MiB (3145728 bytes) of resident memory. -/
def osAlive3MiB : OS := ⟨fun _ => false, fun _ => true, fun _ => 5, fun _ => 3145728⟩

/-- Oracle: `poll()` still returns None but psutil no longer finds the pid
(`NoSuchProcess` on sampling). -/
def osVanished : OS := ⟨fun _ => false, fun _ => false, fun _ => 0, fun _ => 0⟩

/-- A provisioned server `srv` whose `conf.json` holds `"OLD"`. -/
def fsConf : FS := ⟨[["base", "srv"]], [(["base", "srv", "conf.json"], "OLD")], []⟩

/-- A provisioned server `srv` whose log holds two terminated lines. -/
def fsLogs : FS :=
  ⟨[["base", "srv"]], [(["base", "srv", "console.log"], "l1\nl2\n")], []⟩

/-- A filesystem holding only the template archive `tpl/d.zip`. -/
def fsTpl : FS := ⟨[], [(["tpl", "d.zip"], "ZIPDATA")], []⟩

/-!  Helper lemmas. -/

/-- After `del`eting a key, looking it up yields nothing. -/
theorem lookup_remove_self (reg : Registry) (id : String) :
    Registry.lookup (Registry.remove reg id) id = none := by
  induction reg with
  | nil => rfl
  | cons e rest ih =>
    obtain ⟨k, q⟩ := e
    by_cases he : k = id
    · simpa [Registry.remove, List.filter_cons, he] using ih
    · simpa [Registry.remove, List.filter_cons, he, Registry.lookup] using ih

/-- Re-joining the lines `readlines` produced recovers the file content. -/
theorem readlinesChars_flatten (l : List Char) : (readlinesChars l).flatten = l := by
  induction l with
  | nil => rfl
  | cons c rest ih =>
    rw [readlinesChars]
    cases h : readlinesChars rest with
    | nil =>
      rw [h] at ih
      simp at ih
      simp [ih]
    | cons x xs =>
      rw [h] at ih
      by_cases hc : c = '\n' <;> (simp [hc]; simpa using ih)

/-- A list containing `".."` as a contiguous substring is caught by the
source's check. -/
theorem hasDotDot_of_contains_dd {l : List Char}
    (h : List.IsInfix ['.', '.'] l) : hasDotDot l = true := by
  obtain ⟨s, t, hst⟩ := h
  subst hst
  induction s with
  | nil => simp [hasDotDot]
  | cons a s ih =>
    cases hm : s ++ ['.', '.'] ++ t with
    | nil => simp at hm
    | cons b m =>
      rw [List.cons_append, List.cons_append, hm, hasDotDot, ← hm, ih]
      simp

/-!  Claim theorems. -/

/-- C1: the claim demands that two concurrent `start(id)` calls on a
never-started id yield exactly one success and one Conflict, because the
check-and-claim is atomic.  In the source the membership check (line 24)
and the dict insertion (line 48) are separate steps with GIL-releasing
filesystem and spawn calls between them: under the schedule where both
threads run the check before either inserts, both calls return
`started` — two successes, no Conflict — while a fully sequential
schedule does produce the Conflict.  This theorem evaluates the race at
that failing schedule. -/
theorem C1_double_start_both_succeed :
    (runStartRace "s" raceInit [false, true, false, false, true, true]).t0.out
        = .started 100 ∧
    (runStartRace "s" raceInit [false, true, false, false, true, true]).t1.out
        = .started 101 ∧
    (runStartRace "s" raceInit [false, false, false, true]).t0.out
        = .started 100 ∧
    (runStartRace "s" raceInit [false, false, false, true]).t1.out
        = .conflictErr :=
  ⟨rfl, rfl, rfl, rfl⟩

/-- C2 counterexample: an entry whose process `poll()` already reports as
exited.  The next `get_server_status` call returns Stopped, but the stale
entry is *not* removed from the registry, contradicting the claim that
the query "removes the stale entry". -/
theorem C2_counterexample :
    get_server_status osExited [("stale", ⟨5⟩)] "stale"
        = (.ok stoppedStatus, [("stale", ⟨5⟩)]) ∧
    Registry.lookup [("stale", ⟨5⟩)] "stale" = some ⟨5⟩ :=
  ⟨rfl, rfl⟩

/-- C2 (amended): once the OS reports the process exited, the next
`status(id)` returns Stopped; the stale registry entry is removed only in
the case where psutil can no longer find the pid (`NoSuchProcess` during
sampling) — an exit detected by `poll()` leaves the entry in place. -/
theorem C2_exit_detection (os : OS) (reg : Registry) (id : String) (p : Proc)
    (h : Registry.lookup reg id = some p) :
    (os.pollDead p.pid = true →
        get_server_status os reg id = (.ok stoppedStatus, reg)) ∧
    (os.pollDead p.pid = false → os.psFound p.pid = false →
        get_server_status os reg id
            = (.ok stoppedStatus, Registry.remove reg id) ∧
        Registry.lookup (Registry.remove reg id) id = none) := by
  constructor
  · intro hd
    simp [get_server_status, h, hd]
  · intro hd hf
    refine ⟨?_, lookup_remove_self reg id⟩
    simp [get_server_status, h, hd, sampleProcess, hf]

/-- C2 witness: both branches of `C2_exit_detection` at concrete inputs. -/
theorem C2_exit_detection_witness :
    get_server_status osExited [("srv", ⟨5⟩)] "srv"
        = (.ok stoppedStatus, [("srv", ⟨5⟩)]) ∧
    (get_server_status osVanished [("srv", ⟨5⟩)] "srv"
        = (.ok stoppedStatus, Registry.remove [("srv", ⟨5⟩)] "srv") ∧
      Registry.lookup (Registry.remove [("srv", ⟨5⟩)] "srv") "srv" = none) :=
  ⟨(C2_exit_detection osExited [("srv", ⟨5⟩)] "srv" ⟨5⟩ rfl).1 rfl,
   (C2_exit_detection osVanished [("srv", ⟨5⟩)] "srv" ⟨5⟩ rfl).2 rfl rfl⟩

/-- C6: on a live entry whose process does not exit within the 10-second
window, `stop_server` lets `TimeoutExpired` escape from `wait`: only
SIGTERM was sent (no force-kill escalation), the registry entry is left
in place, and the instance does not end Stopped — the escalation the
claim requires is absent from the source. -/
theorem C6_stop_timeout_no_escalation :
    stop_server osAlive (fun _ => false) [("srv", ⟨5⟩)] "srv"
        = (.error .timeoutExpired, [("srv", ⟨5⟩)], [.sigterm]) ∧
    Registry.lookup [("srv", ⟨5⟩)] "srv" = some ⟨5⟩ ∧
    ([Signal.sigterm].contains Signal.sigkill) = false :=
  ⟨rfl, rfl, rfl⟩

/-- C7: `get_server_status` returns a result for every registry, oracle
and id and never raises — the only exception the sampling can raise
(`NoSuchProcess`) is caught — and whenever the registry has no entry for
the id, or the registered process no longer exists (already reaped per
`poll()`, or gone when psutil samples it), the returned dict is exactly
`{Stopped, 0, 0}` rather than an error. -/
theorem C7_status_never_raises (os : OS) (reg : Registry) (id : String) :
    (∃ st reg1, get_server_status os reg id = (.ok st, reg1)) ∧
    (Registry.lookup reg id = none →
        get_server_status os reg id = (.ok stoppedStatus, reg)) ∧
    (∀ p, Registry.lookup reg id = some p →
        os.pollDead p.pid = true ∨ os.psFound p.pid = false →
        (get_server_status os reg id).1 = .ok stoppedStatus) := by
  refine ⟨?_, ?_, ?_⟩
  · unfold get_server_status
    cases h : Registry.lookup reg id with
    | none => exact ⟨_, _, rfl⟩
    | some p =>
      by_cases hd : os.pollDead p.pid
      · simp [hd]
      · unfold sampleProcess
        by_cases hf : os.psFound p.pid
        · simp [hd, hf]
        · simp [hd, hf]
  · intro h
    simp [get_server_status, h]
  · intro p hp hcase
    rcases hcase with hd | hf
    · simp [get_server_status, hp, hd]
    · by_cases hd : os.pollDead p.pid
      · simp [get_server_status, hp, hd]
      · simp [get_server_status, hp, hd, sampleProcess, hf]

/-- C7 witness: the `{Stopped, 0, 0}` conclusions at concrete inputs — an
id with no registry entry, a `poll()`-reaped process, and a process that
vanished before psutil could sample it. -/
theorem C7_status_never_raises_witness :
    get_server_status osAlive [] "ghost" = (.ok stoppedStatus, []) ∧
    (get_server_status osExited [("w7", ⟨5⟩)] "w7").1 = .ok stoppedStatus ∧
    (get_server_status osVanished [("w7", ⟨5⟩)] "w7").1 = .ok stoppedStatus :=
  ⟨(C7_status_never_raises osAlive [] "ghost").2.1 rfl,
   (C7_status_never_raises osExited [("w7", ⟨5⟩)] "w7").2.2 ⟨5⟩ rfl (Or.inl rfl),
   (C7_status_never_raises osVanished [("w7", ⟨5⟩)] "w7").2.2 ⟨5⟩ rfl (Or.inr rfl)⟩

/-- C9 counterexample: a live process with 3145728 bytes (3 MiB) of
resident memory.  The status dict's memory field is `3` — the source
divides `rss` by `1024 * 1024` — not the `3145728` the claim's
"memory in bytes" requires. -/
theorem C9_counterexample :
    (get_server_status osAlive3MiB [("srv", ⟨7⟩)] "srv").1
        = .ok ⟨true, 5, 3, some 7⟩ ∧
    (3 : ℚ) ≠ 3145728 := by
  constructor
  · simp [get_server_status, sampleProcess, osAlive3MiB, Registry.lookup]
    norm_num
  · norm_num

/-- C9 (amended): for a registered process that `poll()` and psutil both
report alive, `status(id)` returns a running dict carrying the sampled
cpu percentage, the resident memory in *megabytes* (`rss / (1024*1024)`,
true division), and the pid. -/
theorem C9_running_memory_in_megabytes (os : OS) (reg : Registry)
    (id : String) (p : Proc) (h : Registry.lookup reg id = some p)
    (hd : os.pollDead p.pid = false) (hf : os.psFound p.pid = true) :
    get_server_status os reg id
        = (.ok ⟨true, os.cpuPct p.pid,
                (os.rssBytes p.pid : ℚ) / (1024 * 1024), some p.pid⟩, reg) := by
  simp [get_server_status, sampleProcess, h, hd, hf]

/-- C9 witness: the amended statement at a concrete 3 MiB process. -/
theorem C9_running_memory_in_megabytes_witness :
    get_server_status osAlive3MiB [("srv", ⟨7⟩)] "srv"
        = (.ok ⟨true, 5, ((3145728 : ℕ) : ℚ) / (1024 * 1024), some 7⟩,
           [("srv", ⟨7⟩)]) :=
  C9_running_memory_in_megabytes osAlive3MiB [("srv", ⟨7⟩)] "srv" ⟨7⟩ rfl rfl rfl

/-- C3: the source rewrites `conf.json` in place — `open(conf_path, 'w')`
truncates the file before `json.dump` writes.  With an existing file
`"OLD"`, a new serialisation `"NEW!"` and an I/O failure after two
characters, the operation raises (RuntimeError, the spec's IOFailure) but
leaves `"NE"` on disk: a truncated hybrid equal to neither the old nor
the new content, so the previous file is not left intact.  This theorem
evaluates the source at that failing input. -/
theorem C3_truncated_config_write :
    update_server_config fsConf (some 2) "srv" "base" true "NEW!"
        = (.error .runtimeError,
           ⟨[["base", "srv"]], [(["base", "srv", "conf.json"], "NE")], []⟩) ∧
    FS.readFile ⟨[["base", "srv"]], [(["base", "srv", "conf.json"], "NE")], []⟩
        ["base", "srv", "conf.json"] = some "NE" ∧
    ("NE" : String) ≠ "OLD" ∧ ("NE" : String) ≠ "NEW!" := by
  refine ⟨rfl, rfl, by decide, by decide⟩

/-- C4: the source extracts the archive directly into the final path
`basePath/id` (`os.makedirs` then `extractall`), with no temporary
location and no cleanup handler.  For a two-entry template whose
extraction fails after the first entry, the zip error escapes unchanged
(not IOFailure) and a partially populated directory — containing the
first entry but not the second — remains visible at the final path.
This theorem evaluates the source at that failing input. -/
theorem C4_partial_extraction_visible :
    create_server (fun _ => some [("a", "1"), ("b", "2")]) (some 1) fsTpl
        "srv" "base" "tpl" "d.zip"
        = (.error .zipError,
           ⟨[["base", "srv"]],
            [(["base", "srv", "a"], "1"), (["tpl", "d.zip"], "ZIPDATA")], []⟩) ∧
    FS.isDir ⟨[["base", "srv"]],
        [(["base", "srv", "a"], "1"), (["tpl", "d.zip"], "ZIPDATA")], []⟩
        ["base", "srv"] = true ∧
    FS.readFile ⟨[["base", "srv"]],
        [(["base", "srv", "a"], "1"), (["tpl", "d.zip"], "ZIPDATA")], []⟩
        ["base", "srv", "a"] = some "1" ∧
    FS.readFile ⟨[["base", "srv"]],
        [(["base", "srv", "a"], "1"), (["tpl", "d.zip"], "ZIPDATA")], []⟩
        ["base", "srv", "b"] = none :=
  ⟨rfl, rfl, rfl, rfl⟩

/-- C5: every template name containing `".."` as a substring or a `/`
separator is rejected with ValueError (the spec's InvalidInput) before
the template file is even looked up and with the filesystem returned
unchanged — for every filesystem, archive layer, crash pattern and other
arguments. -/
theorem C5_path_traversal_rejected
    (unzip : String → Option (List (String × String))) (crash : Option Nat)
    (fs : FS) (id basePath templatesPath tname : String)
    (h : List.IsInfix ['.', '.'] tname.data ∨ '/' ∈ tname.data) :
    create_server unzip crash fs id basePath templatesPath tname
        = (.error .valueError, fs) := by
  unfold create_server
  rcases h with h | h
  · simp [hasDotDot_of_contains_dd h]
  · have hc : tname.data.contains '/' = true := by simp [List.contains, h]
    simp [hc]
    exact fun _ habs => absurd h habs

/-- C5 witness: the traversal name `"../x"` is rejected even though the
template `tpl/x` it would resolve to exists. -/
theorem C5_path_traversal_rejected_witness :
    create_server (fun _ => some []) none ⟨[], [(["tpl", "x"], "Z")], []⟩
        "srv" "base" "tpl" "../x"
        = (.error .valueError, ⟨[], [(["tpl", "x"], "Z")], []⟩) :=
  C5_path_traversal_rejected (fun _ => some []) none
    ⟨[], [(["tpl", "x"], "Z")], []⟩ "srv" "base" "tpl" "../x"
    (Or.inl ⟨[], ['/', 'x'], by decide⟩)

/-- C8 counterexample: the claim quantifies over every line bound `n`, but
at `n = 0` the source's slice `log_lines[-0:]` is the whole list: on a
two-line file the call returns the entire content instead of the last
zero lines (the empty string) the claim requires. -/
theorem C8_zero_bound_counterexample :
    get_server_logs fsLogs "srv" "base" 0 = .ok "l1\nl2\n" ∧
    specLastLines "l1\nl2\n" 0 = "" ∧
    0 < (readlinesChars ("l1\nl2\n" : String).data).length ∧
    ("l1\nl2\n" : String) ≠ "" :=
  ⟨rfl, rfl, by decide, by decide⟩

/-- C8 (amended): for every line bound `n ≥ 1` (the bound `n = 0` instead
returns the whole file): a missing log file raises FileNotFoundError (the
spec's NotFound); a file with more than `n` lines yields exactly the last
`n` lines in their original order; a file with at most `n` lines yields
the entire content unchanged. -/
theorem C8_logs_last_lines (fs : FS) (id basePath : String) (n : Int)
    (hn : 1 ≤ n) :
    (fs.readFile [basePath, id, "console.log"] = none →
        get_server_logs fs id basePath n = .error .fileNotFound) ∧
    (∀ c, fs.readFile [basePath, id, "console.log"] = some c →
      (n.toNat < (readlinesChars c.data).length →
          get_server_logs fs id basePath n = .ok (specLastLines c n.toNat)) ∧
      ((readlinesChars c.data).length ≤ n.toNat →
          get_server_logs fs id basePath n = .ok c)) := by
  have hpos : (0 : Int) < n := hn
  constructor
  · intro hnone
    simp [get_server_logs, hnone]
  · intro c hc
    constructor
    · intro hlt
      have hmin : min n.toNat (readlinesChars c.data).length = n.toNat :=
        min_eq_left (le_of_lt hlt)
      have hslice : pyLastSlice (readlinesChars c.data) n
          = ((readlinesChars c.data).reverse.take n.toNat).reverse := by
        rw [pyLastSlice, if_pos hpos, hmin,
          ← List.rtake_eq_reverse_take_reverse, List.rtake]
      simp [get_server_logs, hc, hslice, specLastLines]
    · intro hle
      have hmin : min n.toNat (readlinesChars c.data).length
          = (readlinesChars c.data).length := min_eq_right hle
      have hslice : pyLastSlice (readlinesChars c.data) n
          = readlinesChars c.data := by
        rw [pyLastSlice, if_pos hpos, hmin]
        simp
      have hjoin : String.mk (readlinesChars c.data).flatten = c := by
        rw [readlinesChars_flatten]
      simp [get_server_logs, hc, hslice, hjoin]

/-- C8 witness: the amended statement on a two-line file, at the bounds
`n = 1` (more lines than the bound) and `n = 5` (fewer lines). -/
theorem C8_logs_last_lines_witness :
    get_server_logs fsLogs "srv" "base" 1 = .ok (specLastLines "l1\nl2\n" 1) ∧
    get_server_logs fsLogs "srv" "base" 5 = .ok "l1\nl2\n" :=
  ⟨((C8_logs_last_lines fsLogs "srv" "base" 1 (by decide)).2
      "l1\nl2\n" rfl).1 (by decide),
   ((C8_logs_last_lines fsLogs "srv" "base" 5 (by decide)).2
      "l1\nl2\n" rfl).2 (by decide)⟩

/-- C10: calling `delete_server` while the registry holds a live entry for
the id but the instance directory is absent first performs the stop —
sending SIGTERM and removing the registry entry — and only then raises
FileNotFoundError (the spec's NotFound): the error path still mutates
registry and process state. -/
theorem C10_delete_stops_then_raises (os : OS) (exits : Nat → Bool)
    (fs : FS) (reg : Registry) (id basePath : String) (p : Proc)
    (hreg : Registry.lookup reg id = some p)
    (halive : os.pollDead p.pid = false)
    (hexit : exits p.pid = true)
    (hdir : fs.isDir [basePath, id] = false) :
    delete_server os exits fs reg id basePath
        = (.error .fileNotFound, Registry.remove reg id, fs, [.sigterm]) ∧
    Registry.lookup (Registry.remove reg id) id = none := by
  refine ⟨?_, lookup_remove_self reg id⟩
  simp [delete_server, stop_server, hreg, halive, hexit, hdir]

/-- C10 witness: a live entry for `srv`, no directory `base/srv`. -/
theorem C10_delete_stops_then_raises_witness :
    delete_server osAlive (fun _ => true) ⟨[], [], []⟩ [("srv", ⟨5⟩)]
        "srv" "base"
        = (.error .fileNotFound, Registry.remove [("srv", ⟨5⟩)] "srv",
           ⟨[], [], []⟩, [.sigterm]) ∧
    Registry.lookup (Registry.remove [("srv", ⟨5⟩)] "srv") "srv" = none :=
  C10_delete_stops_then_raises osAlive (fun _ => true) ⟨[], [], []⟩
    [("srv", ⟨5⟩)] "srv" "base" ⟨5⟩ rfl rfl rfl rfl

end DaemonApp
